import Mathlib

/-!
Verification development for the TRBD event logger.

This file gives a shallow embedding of the event/session core of
`src/event_logger_qt.py` (the Qt variant of the logger) and, where a claim
cites it, of the Flask variant `src/event_logger_gui.py`.  Wall-clock
timestamps are modelled as a day number (days since 1970-01-01) together
with a second-of-day; `strftime` date/time rendering, the CSV row shape,
the `active_events` dictionary, and each operation of the state machine
are translated directly from the Python source.  File writes are modelled
as appends to an in-memory list of rows; the fallible variants take an
explicit flag saying whether the underlying durable write succeeds.
-/

namespace TrbdLogger

/-- Rendering of `%02d` for natural numbers (used by `strftime` fields). -/
def pad2 (n : Nat) : String :=
  if n < 10 then "0" ++ toString n else toString n

/-- Rendering of `%04d`-style year field of `%Y-%m-%d`. -/
def pad4 (n : Nat) : String :=
  if n < 10 then "000" ++ toString n
  else if n < 100 then "00" ++ toString n
  else if n < 1000 then "0" ++ toString n
  else toString n

/-- Rendering of Python `f"{i:02d}"` for integers (durations). -/
def pad2i (i : Int) : String :=
  if 0 ≤ i ∧ i < 10 then "0" ++ toString i else toString i

/-- A wall-clock timestamp: days since 1970-01-01 plus seconds of day.
This models a Python `datetime` value at second resolution. -/
structure DateTime where
  day : Nat
  sod : Nat
deriving DecidableEq

/-- Absolute seconds of a timestamp; Python `datetime` subtraction and
comparison agree with this for in-range values. -/
def DateTime.toSec (t : DateTime) : Nat := t.day * 86400 + t.sod

/-- Gregorian civil date (year, month, day) from a day count since
1970-01-01; the standard days-to-civil conversion used by `strftime`. -/
def civilFromDays (n : Nat) : Nat × Nat × Nat :=
  let z := n + 719468
  let era := z / 146097
  let doe := z % 146097
  let yoe := (doe - doe / 1460 + doe / 36524 - doe / 146096) / 365
  let doy := doe - (365 * yoe + yoe / 4 - yoe / 100)
  let mp := (5 * doy + 2) / 153
  let d := doy - (153 * mp + 2) / 5 + 1
  let m := if mp < 10 then mp + 3 else mp - 9
  let y := yoe + era * 400
  (if m ≤ 2 then y + 1 else y, m, d)

/-- Model of `strftime("%Y-%m-%d")`: depends only on the day component. -/
def fmtDate (t : DateTime) : String :=
  let c := civilFromDays t.day
  pad4 c.1 ++ "-" ++ pad2 c.2.1 ++ "-" ++ pad2 c.2.2

/-- Model of `strftime("%H:%M:%S")`: depends only on the second of day. -/
def fmtTime (t : DateTime) : String :=
  pad2 (t.sod / 3600) ++ ":" ++ pad2 (t.sod % 3600 / 60) ++ ":" ++ pad2 (t.sod % 60)

/-- Python `str.strip()`: whitespace removed from both ends, modelled on
the character list underlying the string. -/
def pyStrip (s : String) : String :=
  ⟨((s.data.dropWhile Char.isWhitespace).reverse.dropWhile
      Char.isWhitespace).reverse⟩

/-- One CSV row of the log file: the fixed 6-column shape
`Event, Start Date, Start Time, End Date, End Time, Notes`. -/
structure Row where
  event : String
  startDate : String
  startTime : String
  endDate : String
  endTime : String
  notes : String
deriving DecidableEq

/-- The header row written by `setup_data_file` when the file is created. -/
def headerRow : Row :=
  ⟨"Event", "Start Date", "Start Time", "End Date", "End Time", "Notes"⟩

/-- The row built by `EventLogger.log_event`: serializes an event with an
optional end time; an absent end time renders as the literal `N/A` in both
the End Date and End Time columns. -/
def logEventRow (event_name : String) (start_time : DateTime)
    (end_time : Option DateTime) (notes : String) : Row :=
  { event := event_name
    startDate := fmtDate start_time
    startTime := fmtTime start_time
    endDate := match end_time with | some t => fmtDate t | none => "N/A"
    endTime := match end_time with | some t => fmtTime t | none => "N/A"
    notes := notes }

/-- The core mutable state of the Qt `EventLogger` object: the
`active_events` dictionary (insertion-ordered, as Python dicts are),
the `session_start_time` attribute (`none` models the attribute never
having been assigned), the contents of the CSV data file, and the
`record_start_time` and `run_parser` flags. -/
structure LoggerState where
  activeEvents : List (String × DateTime)
  sessionStartTime : Option DateTime
  dataFile : List Row
  recordStartTime : Bool
  runParser : Bool
deriving DecidableEq

/-- Python `dict.pop(k)` on an insertion-ordered association list, after a
`k in dict` membership test: returns the value and the remaining entries. -/
def dictPop (l : List (String × DateTime)) (k : String) :
    Option (DateTime × List (String × DateTime)) :=
  match l.lookup k with
  | some v => some (v, l.filter (fun p => p.1 ≠ k))
  | none => none

/-- Outcome reported by `toggle_event` (via the status label and, in the
Flask variant, the JSON `message`): the branch that was taken. -/
inductive ToggleStatus where
  | started
  | ended
deriving DecidableEq

/-- `EventLogger.toggle_event`: if the event is in `active_events` it is
popped and one completed row is appended; otherwise `active_events` is
cleared and the new event becomes active with no row written. -/
def toggle_event (s : LoggerState) (event_name : String) (notes : String)
    (now : DateTime) : ToggleStatus × LoggerState :=
  match dictPop s.activeEvents event_name with
  | some (start_time, rest) =>
      (ToggleStatus.ended,
        { s with activeEvents := rest,
                 dataFile := s.dataFile ++
                   [logEventRow event_name start_time (some now) notes] })
  | none =>
      (ToggleStatus.started,
        { s with activeEvents := [(event_name, now)] })

/-- Outcome reported by `abort_event`: either the "No Active Event"
information dialog, or the name of the aborted event. -/
inductive AbortResult where
  | noActiveEvent
  | aborted (event_name : String)
deriving DecidableEq

/-- `EventLogger.abort_event`: with no active event it reports
`noActiveEvent` and changes nothing; otherwise it pops the first active
event and appends one row with no end time and `ABORTED`-tagged notes. -/
def abort_event (s : LoggerState) (notes : String) : AbortResult × LoggerState :=
  match s.activeEvents with
  | [] => (AbortResult.noActiveEvent, s)
  | (event_name, start_time) :: rest =>
      let abort_notes := if notes ≠ "" then "ABORTED: " ++ notes else "ABORTED"
      (AbortResult.aborted event_name,
        { s with activeEvents := rest,
                 dataFile := s.dataFile ++
                   [logEventRow event_name start_time none abort_notes] })

/-- Outcome of `submit_missing_event`: the "Invalid Time Range" warning or
a successful logging. -/
inductive MissingResult where
  | invalidTimeRange
  | logged
deriving DecidableEq

/-- `EventLogger.submit_missing_event`: the dialog supplies only times of
day (`start_q`, `end_q`, in seconds of day); the date of both endpoints is
taken from `datetime.now()` at submission time.  Rejects `end_q ≤ start_q`
with no write; otherwise appends one row with `Missing event` notes. -/
def submit_missing_event (s : LoggerState) (event_name : String)
    (start_q end_q : Nat) (user_notes : String) (now : DateTime) :
    MissingResult × LoggerState :=
  if end_q ≤ start_q then
    (MissingResult.invalidTimeRange, s)
  else
    let start_datetime : DateTime := ⟨now.day, start_q⟩
    let end_datetime : DateTime := ⟨now.day, end_q⟩
    let notes :=
      if pyStrip user_notes ≠ "" then "Missing event: " ++ pyStrip user_notes
      else "Missing event"
    (MissingResult.logged,
      { s with dataFile := s.dataFile ++
          [logEventRow event_name start_datetime (some end_datetime) notes] })

/-- The `SESSION START` marker row written by `record_session_start`. -/
def sessionStartRow (now : DateTime) : Row :=
  ⟨"SESSION START", fmtDate now, fmtTime now, "N/A", "N/A", "Session started"⟩

/-- `EventLogger.record_session_start`: sets `session_start_time` and
appends the `SESSION START` marker row. -/
def record_session_start (s : LoggerState) (now : DateTime) : LoggerState :=
  { s with sessionStartTime := some now,
           dataFile := s.dataFile ++ [sessionStartRow now] }

/-- `EventLogger.__init__` followed by `setup_data_file`: `folderEmpty`
says whether the date-stamped folder was empty at startup (which sets
`record_start_time`); `existingFile` is `some rows` when the data file
already exists (nothing is written) and `none` when it is created fresh
(header written, then `record_session_start` if `record_start_time`). -/
def setup_data_file (folderEmpty : Bool) (existingFile : Option (List Row))
    (now : DateTime) : LoggerState :=
  let s1 : LoggerState :=
    { activeEvents := [], sessionStartTime := none, dataFile := [],
      recordStartTime := folderEmpty, runParser := false }
  match existingFile with
  | some rows => { s1 with dataFile := rows }
  | none =>
      let s2 := { s1 with dataFile := [headerRow] }
      if s2.recordStartTime then record_session_start s2 now else s2

/-- Python `f"{h:02d}:{m:02d}:{s:02d}"` over the integer duration in
seconds, with Python floor division and floor modulo. -/
def durationStr (total_seconds : Int) : String :=
  pad2i (Int.fdiv total_seconds 3600) ++ ":" ++
  pad2i (Int.fdiv (Int.fmod total_seconds 3600) 60) ++ ":" ++
  pad2i (Int.fmod total_seconds 60)

/-- The `SESSION END` marker row written by `end_session` when the
session start time is known: start columns carry the session start, end
columns the closing time, and the notes the formatted duration. -/
def sessionEndRow (session_start_time now : DateTime) : Row :=
  ⟨"SESSION END", fmtDate session_start_time, fmtTime session_start_time,
    fmtDate now, fmtTime now,
    "Session ended, duration: " ++
      durationStr ((now.toSec : Int) - (session_start_time.toSec : Int))⟩

/-- Exceptions the embedded code can raise. -/
inductive PyErr where
  | ioError
  | attributeError
deriving DecidableEq

/-- The operator's answer to the "Active Event" question dialog shown by
`end_session` when an event is still active. -/
inductive Reply where
  | yes
  | no
  | cancel
deriving DecidableEq

/-- `EventLogger.end_session`: reading `self.session_start_time` raises
`AttributeError` when the attribute was never assigned (a `datetime` value
is always truthy, so the `duration_str = "N/A"` branch and the
`SESSION END` row without a start are dead code in this variant).  With an
active event a question dialog runs: Cancel returns with nothing written,
Yes aborts the active event first, No proceeds with the event still
tracked.  Then the `SESSION END` marker row is appended and `run_parser`
is set before the window closes.  On error the paired state is the object
state at the time the exception propagates. -/
def end_session (s : LoggerState) (now : DateTime) (reply : Reply)
    (notesInput : String) : Except (PyErr × LoggerState) LoggerState :=
  match s.sessionStartTime with
  | none => Except.error (PyErr.attributeError, s)
  | some session_start_time =>
      if s.activeEvents ≠ [] ∧ reply = Reply.cancel then
        Except.ok s
      else
        let s1 := if s.activeEvents ≠ [] ∧ reply = Reply.yes then
                    (abort_event s notesInput).2
                  else s
        Except.ok
          { s1 with
              dataFile := s1.dataFile ++ [sessionEndRow session_start_time now],
              runParser := true }

/-- Fallible variant of `toggle_event`: `writeOk` says whether the durable
CSV append inside `log_event` succeeds.  The `pop` from `active_events`
precedes the append in the source, so on `IOError` the error carries the
state with the entry already removed and the file unchanged. -/
def toggle_event_durable (s : LoggerState) (event_name : String)
    (notes : String) (now : DateTime) (writeOk : Bool) :
    Except (PyErr × LoggerState) (ToggleStatus × LoggerState) :=
  match dictPop s.activeEvents event_name with
  | some (start_time, rest) =>
      let s1 := { s with activeEvents := rest }
      if writeOk then
        Except.ok (ToggleStatus.ended,
          { s1 with dataFile := s1.dataFile ++
              [logEventRow event_name start_time (some now) notes] })
      else
        Except.error (PyErr.ioError, s1)
  | none =>
      Except.ok (ToggleStatus.started,
        { s with activeEvents := [(event_name, now)] })

/-- Fallible variant of `abort_event`: the `pop` precedes the append. -/
def abort_event_durable (s : LoggerState) (notes : String) (writeOk : Bool) :
    Except (PyErr × LoggerState) (AbortResult × LoggerState) :=
  match s.activeEvents with
  | [] => Except.ok (AbortResult.noActiveEvent, s)
  | (event_name, start_time) :: rest =>
      let abort_notes := if notes ≠ "" then "ABORTED: " ++ notes else "ABORTED"
      let s1 := { s with activeEvents := rest }
      if writeOk then
        Except.ok (AbortResult.aborted event_name,
          { s1 with dataFile := s1.dataFile ++
              [logEventRow event_name start_time none abort_notes] })
      else
        Except.error (PyErr.ioError, s1)

/-- Fallible variant of `submit_missing_event`: no in-memory state is
touched before the append, so on `IOError` the state is unchanged. -/
def submit_missing_event_durable (s : LoggerState) (event_name : String)
    (start_q end_q : Nat) (user_notes : String) (now : DateTime)
    (writeOk : Bool) :
    Except (PyErr × LoggerState) (MissingResult × LoggerState) :=
  if end_q ≤ start_q then
    Except.ok (MissingResult.invalidTimeRange, s)
  else
    let start_datetime : DateTime := ⟨now.day, start_q⟩
    let end_datetime : DateTime := ⟨now.day, end_q⟩
    let notes :=
      if pyStrip user_notes ≠ "" then "Missing event: " ++ pyStrip user_notes
      else "Missing event"
    if writeOk then
      Except.ok (MissingResult.logged,
        { s with dataFile := s.dataFile ++
            [logEventRow event_name start_datetime (some end_datetime) notes] })
    else
      Except.error (PyErr.ioError, s)

/-- Fallible variant of `end_session`: `writeOk` says whether the durable
`SESSION END` append succeeds.  The write precedes the method's only
in-memory commit (`run_parser = True`, set after the write), so on
`IOError` the error carries the state with no marker row appended and
`run_parser` untouched; on the Yes path the nested `abort_event` has
already run as its own completed operation. -/
def end_session_durable (s : LoggerState) (now : DateTime) (reply : Reply)
    (notesInput : String) (writeOk : Bool) :
    Except (PyErr × LoggerState) LoggerState :=
  match s.sessionStartTime with
  | none => Except.error (PyErr.attributeError, s)
  | some session_start_time =>
      if s.activeEvents ≠ [] ∧ reply = Reply.cancel then
        Except.ok s
      else
        let s1 := if s.activeEvents ≠ [] ∧ reply = Reply.yes then
                    (abort_event s notesInput).2
                  else s
        if writeOk then
          Except.ok
            { s1 with
                dataFile := s1.dataFile ++ [sessionEndRow session_start_time now],
                runParser := true }
        else
          Except.error (PyErr.ioError, s1)

/-- One user-facing operation of the state machine, with the inputs it
reads (clock readings, notes field contents, dialog answers). -/
inductive Op where
  | toggle (event_name notes : String) (now : DateTime)
  | abort (notes : String)
  | missing (event_name : String) (start_q end_q : Nat) (user_notes : String)
      (now : DateTime)
  | endSess (now : DateTime) (reply : Reply) (notesInput : String)
  | startSess (now : DateTime)
deriving DecidableEq

/-- Apply one operation to the logger state (for `end_session`, the state
at the end of the call whether it returned or raised). -/
def applyOp (s : LoggerState) (op : Op) : LoggerState :=
  match op with
  | Op.toggle n notes now => (toggle_event s n notes now).2
  | Op.abort notes => (abort_event s notes).2
  | Op.missing n a b un now => (submit_missing_event s n a b un now).2
  | Op.endSess now r ni =>
      match end_session s now r ni with
      | Except.ok s2 => s2
      | Except.error e => e.2
  | Op.startSess now => record_session_start s now

/-- Run a sequence of operations from a state. -/
def runOps (s : LoggerState) (ops : List Op) : LoggerState :=
  ops.foldl applyOp s

/-- Core state of the Flask variant `event_logger_gui.py`: the module
level `active_events` dictionary and the CSV file contents. -/
structure GuiState where
  activeEvents : List (String × DateTime)
  dataFile : List Row
deriving DecidableEq

/-- `toggle_event` of the Flask variant: identical logic to the Qt one —
an active different event is silently cleared by `active_events.clear()`
before the new event is started. -/
def gui_toggle_event (s : GuiState) (event_name : String) (notes : String)
    (now : DateTime) : ToggleStatus × GuiState :=
  match dictPop s.activeEvents event_name with
  | some (start_time, rest) =>
      (ToggleStatus.ended,
        { s with activeEvents := rest,
                 dataFile := s.dataFile ++
                   [logEventRow event_name start_time (some now) notes] })
  | none =>
      (ToggleStatus.started,
        { s with activeEvents := [(event_name, now)] })

/-! Helper lemmas. -/

/-- Integer rendering of a natural number agrees with natural rendering. -/
lemma toString_intOfNat (n : Nat) : toString ((n : Int)) = toString n := rfl

/-- `pad2i` on a natural number agrees with `pad2`. -/
lemma pad2i_ofNat (n : Nat) : pad2i (n : Int) = pad2 n := by
  by_cases h : n < 10
  · have hc : (0 ≤ (n : Int) ∧ (n : Int) < 10) :=
      ⟨Int.ofNat_nonneg n, by exact_mod_cast h⟩
    simp [pad2i, pad2, if_pos hc, if_pos h, toString_intOfNat]
  · have hc : ¬(0 ≤ (n : Int) ∧ (n : Int) < 10) := by
      rintro ⟨-, hlt⟩
      exact h (by exact_mod_cast hlt)
    simp [pad2i, pad2, if_neg hc, if_neg h, toString_intOfNat]

/-- `HH:MM:SS` rendering of a nonnegative duration in seconds — the
format the spec names for session durations. -/
def hmsStr (n : Nat) : String :=
  pad2 (n / 3600) ++ ":" ++ pad2 (n % 3600 / 60) ++ ":" ++ pad2 (n % 60)

/-- On natural inputs the Python duration formatter is plain `HH:MM:SS`. -/
lemma durationStr_ofNat (n : Nat) : durationStr (n : Int) = hmsStr n := by
  unfold durationStr hmsStr
  have h1 : Int.fdiv (n : Int) (3600 : Int) = ((n / 3600 : Nat) : Int) := by
    exact_mod_cast (Int.ofNat_fdiv n 3600).symm
  have h2 : Int.fmod (n : Int) (3600 : Int) = ((n % 3600 : Nat) : Int) := by
    exact_mod_cast (Int.ofNat_fmod n 3600).symm
  have h3 : Int.fdiv ((n % 3600 : Nat) : Int) (60 : Int) =
      ((n % 3600 / 60 : Nat) : Int) := by
    exact_mod_cast (Int.ofNat_fdiv (n % 3600) 60).symm
  have h4 : Int.fmod (n : Int) (60 : Int) = ((n % 60 : Nat) : Int) := by
    exact_mod_cast (Int.ofNat_fmod n 60).symm
  rw [h1, h2, h3, h4, pad2i_ofNat, pad2i_ofNat, pad2i_ofNat]

/-- Inversion for a successful dictionary pop: the value is the stored
one and the remainder is the list with the key filtered out. -/
lemma dictPop_eq_some {l : List (String × DateTime)} {k : String}
    {v : DateTime} {rest : List (String × DateTime)}
    (h : dictPop l k = some (v, rest)) :
    l.lookup k = some v ∧ rest = l.filter (fun p => p.1 ≠ k) := by
  unfold dictPop at h
  cases hl : l.lookup k with
  | none => rw [hl] at h; cases h
  | some w =>
      rw [hl] at h
      have hpair := Option.some.inj h
      have hv : w = v := congrArg Prod.fst hpair
      have hr : l.filter (fun p => p.1 ≠ k) = rest := congrArg Prod.snd hpair
      exact ⟨by rw [hv], hr.symm⟩

/-! Claims. -/

/-- C1: the claim says that toggling a different event while one is
active must fail with `EventAlreadyActive` and change nothing (policy
P1).  The code instead takes the `started` branch: `active_events` is
cleared — silently discarding the active `Meal` event, whose start time
is lost with no row written — and `Break` becomes active.  This theorem
evaluates both the Qt and the Flask `toggle_event` at such an input. -/
theorem claim_C1_conflicting_toggle_silently_clears :
    toggle_event
        ⟨[("Meal", ⟨20300, 36000⟩)], some ⟨20300, 30000⟩, [headerRow], true, false⟩
        "Break" "" ⟨20300, 37000⟩
      = (ToggleStatus.started,
          ⟨[("Break", ⟨20300, 37000⟩)], some ⟨20300, 30000⟩, [headerRow], true,
            false⟩) ∧
    gui_toggle_event ⟨[("Meal", ⟨20300, 36000⟩)], [headerRow]⟩
        "Break" "" ⟨20300, 37000⟩
      = (ToggleStatus.started, ⟨[("Break", ⟨20300, 37000⟩)], [headerRow]⟩) := by
  exact ⟨rfl, rfl⟩

/-- C2 counterexample: ending `Meal` when the durable append fails with
`IOError` does not leave the in-memory state unchanged — the active
entry was popped before the append and is not restored, so
`active_events` went from one entry to empty while no row was written. -/
theorem claim_C2_counterexample_pop_precedes_append :
    toggle_event_durable
        ⟨[("Meal", ⟨20300, 36000⟩)], some ⟨20300, 30000⟩, [headerRow], true, false⟩
        "Meal" "" ⟨20300, 37000⟩ false
      = Except.error (PyErr.ioError,
          ⟨[], some ⟨20300, 30000⟩, [headerRow], true, false⟩) := by
  rfl

/-- C2 amended: when the durable append fails with `IOError` no
operation is reported successful (the exception propagates) and no row
is appended.  For `submit_missing_event`, which mutates nothing before
the append, and for `end_session`, whose only in-memory commit
(`run_parser = True`) follows the append, the state is left unchanged
as the claim says — on the Yes path the preceding abort is its own
separately committed operation and still no `SESSION END` row lands.
But in `toggle_event` (ending branch) and `abort_event` the active
entry was popped before the append and is not restored, so there the
in-memory active-event state has already changed. -/
theorem claim_C2_amended_failed_append (s : LoggerState)
    (name notes ni u : String) (now : DateTime) (st sst : DateTime)
    (rest : List (String × DateTime)) (hd : String × DateTime)
    (tl : List (String × DateTime)) (a b : Nat) :
    (dictPop s.activeEvents name = some (st, rest) →
      toggle_event_durable s name notes now false =
        Except.error (PyErr.ioError, { s with activeEvents := rest })) ∧
    (s.activeEvents = hd :: tl →
      abort_event_durable s ni false =
        Except.error (PyErr.ioError, { s with activeEvents := tl })) ∧
    (a < b →
      submit_missing_event_durable s name a b u now false =
        Except.error (PyErr.ioError, s)) ∧
    (s.sessionStartTime = some sst →
      end_session_durable s now Reply.no ni false =
        Except.error (PyErr.ioError, s)) ∧
    (s.sessionStartTime = some sst → s.activeEvents = hd :: tl →
      end_session_durable s now Reply.yes ni false =
        Except.error (PyErr.ioError, (abort_event s ni).2) ∧
      ((abort_event s ni).2).runParser = s.runParser ∧
      ((abort_event s ni).2).dataFile =
        s.dataFile ++
          [logEventRow hd.1 hd.2 none
             (if ni ≠ "" then "ABORTED: " ++ ni else "ABORTED")]) := by
  refine ⟨?_, ?_, ?_, ?_, ?_⟩
  · intro hp
    simp only [toggle_event_durable, hp]
    rfl
  · intro hc
    simp only [abort_event_durable, hc]
    rfl
  · intro hab
    have : ¬ b ≤ a := Nat.not_le_of_lt hab
    simp only [submit_missing_event_durable, if_neg this]
    rfl
  · intro hsst
    unfold end_session_durable
    rw [hsst]
    simp
  · intro hsst hc
    obtain ⟨n0, t0⟩ := hd
    refine ⟨?_, ?_, ?_⟩
    · unfold end_session_durable
      rw [hsst]
      simp [hc]
    · simp [abort_event, hc]
    · simp [abort_event, hc]

/-- C2 amended, witnessed at a concrete state with `Meal` active and the
session start recorded. -/
theorem claim_C2_amended_failed_append_witness :
    (dictPop [("Meal", (⟨20300, 36000⟩ : DateTime))] "Meal" =
        some (⟨20300, 36000⟩, []) ∧
      (1 : Nat) < 2) ∧
    (toggle_event_durable
        ⟨[("Meal", ⟨20300, 36000⟩)], some ⟨20300, 30000⟩, [headerRow], true, false⟩
        "Meal" "" ⟨20300, 37000⟩ false =
      Except.error (PyErr.ioError,
        ⟨[], some ⟨20300, 30000⟩, [headerRow], true, false⟩)) ∧
    (abort_event_durable
        ⟨[("Meal", ⟨20300, 36000⟩)], some ⟨20300, 30000⟩, [headerRow], true, false⟩
        "" false =
      Except.error (PyErr.ioError,
        ⟨[], some ⟨20300, 30000⟩, [headerRow], true, false⟩)) ∧
    (submit_missing_event_durable
        ⟨[("Meal", ⟨20300, 36000⟩)], some ⟨20300, 30000⟩, [headerRow], true, false⟩
        "Meal" 1 2 "" ⟨20300, 37000⟩ false =
      Except.error (PyErr.ioError,
        ⟨[("Meal", ⟨20300, 36000⟩)], some ⟨20300, 30000⟩, [headerRow], true, false⟩)) ∧
    (end_session_durable
        ⟨[("Meal", ⟨20300, 36000⟩)], some ⟨20300, 30000⟩, [headerRow], true, false⟩
        ⟨20300, 37000⟩ Reply.no "" false =
      Except.error (PyErr.ioError,
        ⟨[("Meal", ⟨20300, 36000⟩)], some ⟨20300, 30000⟩, [headerRow], true, false⟩)) ∧
    (end_session_durable
        ⟨[("Meal", ⟨20300, 36000⟩)], some ⟨20300, 30000⟩, [headerRow], true, false⟩
        ⟨20300, 37000⟩ Reply.yes "" false =
      Except.error (PyErr.ioError,
        (abort_event
          ⟨[("Meal", ⟨20300, 36000⟩)], some ⟨20300, 30000⟩, [headerRow], true,
            false⟩ "").2)) ∧
    ((abort_event
        ⟨[("Meal", ⟨20300, 36000⟩)], some ⟨20300, 30000⟩, [headerRow], true,
          false⟩ "").2).runParser = false ∧
    ((abort_event
        ⟨[("Meal", ⟨20300, 36000⟩)], some ⟨20300, 30000⟩, [headerRow], true,
          false⟩ "").2).dataFile =
      [headerRow] ++ [logEventRow "Meal" ⟨20300, 36000⟩ none "ABORTED"] :=
  ⟨⟨by decide, by decide⟩,
    (claim_C2_amended_failed_append
      ⟨[("Meal", ⟨20300, 36000⟩)], some ⟨20300, 30000⟩, [headerRow], true, false⟩
      "Meal" "" "" "" ⟨20300, 37000⟩ ⟨20300, 36000⟩ ⟨20300, 30000⟩ []
      ("Meal", ⟨20300, 36000⟩) [] 1 2).1 (by decide),
    (claim_C2_amended_failed_append
      ⟨[("Meal", ⟨20300, 36000⟩)], some ⟨20300, 30000⟩, [headerRow], true, false⟩
      "Meal" "" "" "" ⟨20300, 37000⟩ ⟨20300, 36000⟩ ⟨20300, 30000⟩ []
      ("Meal", ⟨20300, 36000⟩) [] 1 2).2.1 rfl,
    (claim_C2_amended_failed_append
      ⟨[("Meal", ⟨20300, 36000⟩)], some ⟨20300, 30000⟩, [headerRow], true, false⟩
      "Meal" "" "" "" ⟨20300, 37000⟩ ⟨20300, 36000⟩ ⟨20300, 30000⟩ []
      ("Meal", ⟨20300, 36000⟩) [] 1 2).2.2.1 (by decide),
    (claim_C2_amended_failed_append
      ⟨[("Meal", ⟨20300, 36000⟩)], some ⟨20300, 30000⟩, [headerRow], true, false⟩
      "Meal" "" "" "" ⟨20300, 37000⟩ ⟨20300, 36000⟩ ⟨20300, 30000⟩ []
      ("Meal", ⟨20300, 36000⟩) [] 1 2).2.2.2.1 rfl,
    ((claim_C2_amended_failed_append
      ⟨[("Meal", ⟨20300, 36000⟩)], some ⟨20300, 30000⟩, [headerRow], true, false⟩
      "Meal" "" "" "" ⟨20300, 37000⟩ ⟨20300, 36000⟩ ⟨20300, 30000⟩ []
      ("Meal", ⟨20300, 36000⟩) [] 1 2).2.2.2.2 rfl rfl).1,
    ((claim_C2_amended_failed_append
      ⟨[("Meal", ⟨20300, 36000⟩)], some ⟨20300, 30000⟩, [headerRow], true, false⟩
      "Meal" "" "" "" ⟨20300, 37000⟩ ⟨20300, 36000⟩ ⟨20300, 30000⟩ []
      ("Meal", ⟨20300, 36000⟩) [] 1 2).2.2.2.2 rfl rfl).2.1,
    ((claim_C2_amended_failed_append
      ⟨[("Meal", ⟨20300, 36000⟩)], some ⟨20300, 30000⟩, [headerRow], true, false⟩
      "Meal" "" "" "" ⟨20300, 37000⟩ ⟨20300, 36000⟩ ⟨20300, 30000⟩ []
      ("Meal", ⟨20300, 36000⟩) [] 1 2).2.2.2.2 rfl rfl).2.2⟩

/-- C3 counterexample: `end_session` invoked while `Meal` is active, with
the operator answering No to the abort prompt, succeeds and appends a
`SESSION END` row — it neither fails with `ActiveEventPending` (no such
error exists in the code) nor refrains from writing the marker. -/
theorem claim_C3_counterexample_end_session_while_active :
    end_session
        ⟨[("Meal", ⟨20300, 36000⟩)], some ⟨20300, 30000⟩, [headerRow], true, false⟩
        ⟨20300, 40000⟩ Reply.no ""
      = Except.ok
          ⟨[("Meal", ⟨20300, 36000⟩)], some ⟨20300, 30000⟩,
            [headerRow,
              ⟨"SESSION END", "2025-07-31", "08:20:00", "2025-07-31",
                "11:06:40", "Session ended, duration: 02:46:40"⟩],
            true, true⟩ := by
  rfl

/-- C3 amended: `end_session` while an event is active shows the abort
question dialog instead of failing: on Cancel it returns with no row
appended and the state unchanged; on Yes it aborts the active event (one
`ABORTED` row) and then appends the `SESSION END` marker; on No it
appends the `SESSION END` marker with the event still tracked as
active. -/
theorem claim_C3_amended_end_session_prompts (s : LoggerState)
    (sst : DateTime) (name : String) (st : DateTime)
    (rest : List (String × DateTime)) (now : DateTime) (ni : String)
    (hs : s.sessionStartTime = some sst)
    (ha : s.activeEvents = (name, st) :: rest) :
    end_session s now Reply.cancel ni = Except.ok s ∧
    end_session s now Reply.yes ni =
      Except.ok
        { s with activeEvents := rest,
                 dataFile := s.dataFile ++
                   [logEventRow name st none
                      (if ni ≠ "" then "ABORTED: " ++ ni else "ABORTED"),
                    sessionEndRow sst now],
                 runParser := true } ∧
    end_session s now Reply.no ni =
      Except.ok
        { s with dataFile := s.dataFile ++ [sessionEndRow sst now],
                 runParser := true } := by
  refine ⟨?_, ?_, ?_⟩
  · unfold end_session
    rw [hs]
    simp [ha]
  · unfold end_session
    rw [hs]
    simp [ha, abort_event]
    exact hs
  · unfold end_session
    rw [hs]
    simp [ha]
    exact hs

/-- C3 amended, witnessed at a concrete state with `Meal` active. -/
theorem claim_C3_amended_end_session_prompts_witness :
    ((⟨[("Meal", ⟨20300, 36000⟩)], some ⟨20300, 30000⟩, [headerRow], true,
        false⟩ : LoggerState).sessionStartTime = some ⟨20300, 30000⟩ ∧
      (⟨[("Meal", ⟨20300, 36000⟩)], some ⟨20300, 30000⟩, [headerRow], true,
        false⟩ : LoggerState).activeEvents = [("Meal", ⟨20300, 36000⟩)]) ∧
    end_session
        ⟨[("Meal", ⟨20300, 36000⟩)], some ⟨20300, 30000⟩, [headerRow], true, false⟩
        ⟨20300, 40000⟩ Reply.cancel ""
      = Except.ok
          ⟨[("Meal", ⟨20300, 36000⟩)], some ⟨20300, 30000⟩, [headerRow], true,
            false⟩ ∧
    end_session
        ⟨[("Meal", ⟨20300, 36000⟩)], some ⟨20300, 30000⟩, [headerRow], true, false⟩
        ⟨20300, 40000⟩ Reply.yes ""
      = Except.ok
          ⟨[], some ⟨20300, 30000⟩,
            [headerRow] ++
              [logEventRow "Meal" ⟨20300, 36000⟩ none "ABORTED",
               sessionEndRow ⟨20300, 30000⟩ ⟨20300, 40000⟩],
            true, true⟩ ∧
    end_session
        ⟨[("Meal", ⟨20300, 36000⟩)], some ⟨20300, 30000⟩, [headerRow], true, false⟩
        ⟨20300, 40000⟩ Reply.no ""
      = Except.ok
          ⟨[("Meal", ⟨20300, 36000⟩)], some ⟨20300, 30000⟩,
            [headerRow] ++ [sessionEndRow ⟨20300, 30000⟩ ⟨20300, 40000⟩],
            true, true⟩ := by
  have h := claim_C3_amended_end_session_prompts
    ⟨[("Meal", ⟨20300, 36000⟩)], some ⟨20300, 30000⟩, [headerRow], true, false⟩
    ⟨20300, 30000⟩ "Meal" ⟨20300, 36000⟩ [] ⟨20300, 40000⟩ "" rfl rfl
  exact ⟨⟨rfl, rfl⟩, h.1, h.2.1, h.2.2⟩

/-- C4: from the no-event state, `toggle_event(X)` starts the event and
appends nothing, and a second `toggle_event(X)` ends it, appending
exactly one row whose start time is the first call's clock reading and
whose end time (present, not `N/A`) is the second call's; with a
monotone clock the recorded start is at most the recorded end. -/
theorem claim_C4_toggle_twice_appends_one_row (s : LoggerState)
    (name notes1 notes2 : String) (t1 t2 : DateTime)
    (hno : s.activeEvents = []) (hle : t1.toSec ≤ t2.toSec) :
    (toggle_event s name notes1 t1).1 = ToggleStatus.started ∧
    ((toggle_event s name notes1 t1).2).dataFile = s.dataFile ∧
    (toggle_event (toggle_event s name notes1 t1).2 name notes2 t2).1 =
      ToggleStatus.ended ∧
    (toggle_event (toggle_event s name notes1 t1).2 name notes2 t2).2.dataFile =
      s.dataFile ++ [logEventRow name t1 (some t2) notes2] ∧
    (toggle_event (toggle_event s name notes1 t1).2 name notes2 t2).2.activeEvents =
      [] ∧
    t1.toSec ≤ t2.toSec := by
  refine ⟨?_, ?_, ?_, ?_, ?_, hle⟩ <;>
    simp [toggle_event, dictPop, hno, List.lookup]

/-- C4 witness at a concrete empty state and two clock readings. -/
theorem claim_C4_toggle_twice_appends_one_row_witness :
    ((⟨[], none, [headerRow], false, false⟩ : LoggerState).activeEvents = [] ∧
      (⟨20300, 36000⟩ : DateTime).toSec ≤ (⟨20300, 37000⟩ : DateTime).toSec) ∧
    ((toggle_event ⟨[], none, [headerRow], false, false⟩ "Meal" "" ⟨20300, 36000⟩).1 =
        ToggleStatus.started ∧
      ((toggle_event ⟨[], none, [headerRow], false, false⟩ "Meal" ""
          ⟨20300, 36000⟩).2).dataFile = [headerRow] ∧
      (toggle_event
          (toggle_event ⟨[], none, [headerRow], false, false⟩ "Meal" ""
            ⟨20300, 36000⟩).2 "Meal" "" ⟨20300, 37000⟩).1 = ToggleStatus.ended ∧
      (toggle_event
          (toggle_event ⟨[], none, [headerRow], false, false⟩ "Meal" ""
            ⟨20300, 36000⟩).2 "Meal" "" ⟨20300, 37000⟩).2.dataFile =
        [headerRow] ++ [logEventRow "Meal" ⟨20300, 36000⟩ (some ⟨20300, 37000⟩) ""] ∧
      (toggle_event
          (toggle_event ⟨[], none, [headerRow], false, false⟩ "Meal" ""
            ⟨20300, 36000⟩).2 "Meal" "" ⟨20300, 37000⟩).2.activeEvents = [] ∧
      (⟨20300, 36000⟩ : DateTime).toSec ≤ (⟨20300, 37000⟩ : DateTime).toSec) :=
  ⟨⟨rfl, by decide⟩,
    claim_C4_toggle_twice_appends_one_row ⟨[], none, [headerRow], false, false⟩
      "Meal" "" "" ⟨20300, 36000⟩ ⟨20300, 37000⟩ rfl (by decide)⟩

/-- C5: aborting while `(name, st)` is the active event appends exactly
one row whose End Date and End Time are the literal `N/A`, with notes
`ABORTED: n` for non-empty user notes `n` and exactly `ABORTED` for
empty notes, and empties the active slot; aborting with no active event
reports `noActiveEvent` and changes nothing. -/
theorem claim_C5_abort_event_semantics (s : LoggerState) (name n : String)
    (st : DateTime) :
    (s.activeEvents = [(name, st)] →
      abort_event s n =
        (AbortResult.aborted name,
          { s with activeEvents := [],
                   dataFile := s.dataFile ++
                     [logEventRow name st none
                        (if n ≠ "" then "ABORTED: " ++ n else "ABORTED")] }) ∧
      (logEventRow name st none
          (if n ≠ "" then "ABORTED: " ++ n else "ABORTED")).endDate = "N/A" ∧
      (logEventRow name st none
          (if n ≠ "" then "ABORTED: " ++ n else "ABORTED")).endTime = "N/A") ∧
    (s.activeEvents = [] →
      abort_event s n = (AbortResult.noActiveEvent, s)) := by
  constructor
  · intro h
    refine ⟨?_, rfl, rfl⟩
    simp [abort_event, h]
  · intro h
    simp [abort_event, h]

/-- C5 witness: one abort with `Meal` active and non-empty notes, one
abort with empty notes, and one abort with nothing active. -/
theorem claim_C5_abort_event_semantics_witness :
    (abort_event ⟨[("Meal", ⟨20300, 36000⟩)], none, [headerRow], false, false⟩
        "left early" =
      (AbortResult.aborted "Meal",
        ⟨[], none,
          [headerRow] ++
            [logEventRow "Meal" ⟨20300, 36000⟩ none "ABORTED: left early"],
          false, false⟩)) ∧
    (abort_event ⟨[("Meal", ⟨20300, 36000⟩)], none, [headerRow], false, false⟩
        "" =
      (AbortResult.aborted "Meal",
        ⟨[], none,
          [headerRow] ++ [logEventRow "Meal" ⟨20300, 36000⟩ none "ABORTED"],
          false, false⟩)) ∧
    (logEventRow "Meal" ⟨20300, 36000⟩ none "ABORTED").endDate = "N/A" ∧
    (logEventRow "Meal" ⟨20300, 36000⟩ none "ABORTED").endTime = "N/A" ∧
    (abort_event ⟨[], none, [headerRow], false, false⟩ "x" =
      (AbortResult.noActiveEvent, ⟨[], none, [headerRow], false, false⟩)) := by
  have h1 := (claim_C5_abort_event_semantics
    ⟨[("Meal", ⟨20300, 36000⟩)], none, [headerRow], false, false⟩ "Meal"
    "left early" ⟨20300, 36000⟩).1 rfl
  have h2 := (claim_C5_abort_event_semantics
    ⟨[("Meal", ⟨20300, 36000⟩)], none, [headerRow], false, false⟩ "Meal" ""
    ⟨20300, 36000⟩).1 rfl
  have h3 := (claim_C5_abort_event_semantics
    ⟨[], none, [headerRow], false, false⟩ "Meal" "x" ⟨20300, 36000⟩).2 rfl
  refine ⟨?_, ?_, h2.2.1, h2.2.2, h3⟩
  · have := h1.1
    simpa using this
  · have := h2.1
    simpa using this

/-- C6: `submit_missing_event` with end time of day at most the start
rejects with `invalidTimeRange` and appends nothing; with a strictly
later end it appends exactly one row whose notes are `Missing event`
followed by `: <notes>` when trimmed user notes are non-empty; the
active-event slot is untouched in both cases. -/
theorem claim_C6_missing_event_validation (s : LoggerState) (name : String)
    (a b : Nat) (u : String) (now : DateTime) :
    (b ≤ a →
      submit_missing_event s name a b u now =
        (MissingResult.invalidTimeRange, s)) ∧
    (a < b →
      submit_missing_event s name a b u now =
        (MissingResult.logged,
          { s with dataFile := s.dataFile ++
              [logEventRow name ⟨now.day, a⟩ (some ⟨now.day, b⟩)
                 (if pyStrip u ≠ "" then "Missing event: " ++ pyStrip u
                  else "Missing event")] }) ∧
      (∃ suffix,
        (logEventRow name ⟨now.day, a⟩ (some ⟨now.day, b⟩)
            (if pyStrip u ≠ "" then "Missing event: " ++ pyStrip u
             else "Missing event")).notes = "Missing event" ++ suffix) ∧
      ({ s with dataFile := s.dataFile ++
           [logEventRow name ⟨now.day, a⟩ (some ⟨now.day, b⟩)
              (if pyStrip u ≠ "" then "Missing event: " ++ pyStrip u
               else "Missing event")] } : LoggerState).activeEvents =
        s.activeEvents) := by
  constructor
  · intro h
    simp [submit_missing_event, h]
  · intro h
    have hng : ¬ b ≤ a := Nat.not_le_of_lt h
    refine ⟨?_, ?_, rfl⟩
    · simp [submit_missing_event, if_neg hng]
    · by_cases ht : pyStrip u = ""
      · refine ⟨"", ?_⟩
        simp [logEventRow, ht]
      · refine ⟨": " ++ pyStrip u, ?_⟩
        have hlit : ("Missing event" ++ ": " : String) = "Missing event: " := rfl
        simp only [logEventRow, if_pos ht, ← String.append_assoc, hlit]

/-- C6 witness: a rejected submission (`end ≤ start`) and an accepted
one, with non-empty user notes. -/
theorem claim_C6_missing_event_validation_witness :
    ((36000 : Nat) ≤ 36000 ∧ (36000 : Nat) < 37000) ∧
    (submit_missing_event ⟨[], none, [headerRow], false, false⟩ "Walk" 36000
        36000 "forgot" ⟨20300, 40000⟩ =
      (MissingResult.invalidTimeRange, ⟨[], none, [headerRow], false, false⟩)) ∧
    (submit_missing_event ⟨[], none, [headerRow], false, false⟩ "Walk" 36000
        37000 "forgot" ⟨20300, 40000⟩ =
      (MissingResult.logged,
        ⟨[], none,
          [headerRow] ++
            [logEventRow "Walk" ⟨20300, 36000⟩ (some ⟨20300, 37000⟩)
               "Missing event: forgot"],
          false, false⟩)) ∧
    (∃ suffix,
      (logEventRow "Walk" ⟨20300, 36000⟩ (some ⟨20300, 37000⟩)
          "Missing event: forgot").notes = "Missing event" ++ suffix) := by
  have h1 := (claim_C6_missing_event_validation
    ⟨[], none, [headerRow], false, false⟩ "Walk" 36000 36000 "forgot"
    ⟨20300, 40000⟩).1 (by decide)
  have h2 := (claim_C6_missing_event_validation
    ⟨[], none, [headerRow], false, false⟩ "Walk" 36000 37000 "forgot"
    ⟨20300, 40000⟩).2 (by decide)
  have htr : pyStrip "forgot" = "forgot" := rfl
  refine ⟨⟨by decide, by decide⟩, h1, ?_, ?_⟩
  · have := h2.1
    simpa [htr] using this
  · have := h2.2.1
    simpa [htr] using this

/-- C10: every row appended by `submit_missing_event` carries the
submission day as both its Start Date and End Date — the dialog collects
only times of day, so the constructed start and end timestamps share the
current day, and any true event endpoint lying on a different day than
the submission differs from the logged one. -/
theorem claim_C10_missing_event_uses_submission_date (s : LoggerState)
    (name : String) (a b : Nat) (u : String) (now : DateTime) (h : a < b) :
    (submit_missing_event s name a b u now).2.dataFile =
      s.dataFile ++
        [logEventRow name ⟨now.day, a⟩ (some ⟨now.day, b⟩)
           (if pyStrip u ≠ "" then "Missing event: " ++ pyStrip u
            else "Missing event")] ∧
    (logEventRow name ⟨now.day, a⟩ (some ⟨now.day, b⟩)
        (if pyStrip u ≠ "" then "Missing event: " ++ pyStrip u
         else "Missing event")).startDate = fmtDate now ∧
    (logEventRow name ⟨now.day, a⟩ (some ⟨now.day, b⟩)
        (if pyStrip u ≠ "" then "Missing event: " ++ pyStrip u
         else "Missing event")).endDate = fmtDate now ∧
    (∀ trueStart : DateTime, trueStart.day ≠ now.day →
      (⟨now.day, a⟩ : DateTime) ≠ trueStart) ∧
    (∀ trueEnd : DateTime, trueEnd.day ≠ now.day →
      (⟨now.day, b⟩ : DateTime) ≠ trueEnd) := by
  have hng : ¬ b ≤ a := Nat.not_le_of_lt h
  refine ⟨?_, ?_, ?_, ?_, ?_⟩
  · simp [submit_missing_event, if_neg hng]
  · simp [logEventRow, fmtDate]
  · simp [logEventRow, fmtDate]
  · intro t ht heq
    exact ht (congrArg DateTime.day heq).symm
  · intro t ht heq
    exact ht (congrArg DateTime.day heq).symm

/-- C10 witness: a submission dated day 20300 whose purported true start
lies on the previous day. -/
theorem claim_C10_missing_event_uses_submission_date_witness :
    ((36000 : Nat) < 37000 ∧
      (⟨20299, 36000⟩ : DateTime).day ≠ (⟨20300, 40000⟩ : DateTime).day) ∧
    ((submit_missing_event ⟨[], none, [headerRow], false, false⟩ "Walk" 36000
        37000 "" ⟨20300, 40000⟩).2.dataFile =
      [headerRow] ++
        [logEventRow "Walk" ⟨20300, 36000⟩ (some ⟨20300, 37000⟩)
           "Missing event"] ∧
      (logEventRow "Walk" ⟨20300, 36000⟩ (some ⟨20300, 37000⟩)
          "Missing event").startDate = fmtDate ⟨20300, 40000⟩ ∧
      (logEventRow "Walk" ⟨20300, 36000⟩ (some ⟨20300, 37000⟩)
          "Missing event").endDate = fmtDate ⟨20300, 40000⟩ ∧
      (⟨20300, 36000⟩ : DateTime) ≠ ⟨20299, 36000⟩) := by
  have h := claim_C10_missing_event_uses_submission_date
    ⟨[], none, [headerRow], false, false⟩ "Walk" 36000 37000 ""
    ⟨20300, 40000⟩ (by decide)
  have htr : pyStrip "" = "" := rfl
  refine ⟨⟨by decide, by decide⟩, ?_, ?_, ?_, ?_⟩
  · have := h.1
    simpa [htr] using this
  · have := h.2.1
    simpa [htr] using this
  · have := h.2.2.1
    simpa [htr] using this
  · exact h.2.2.2.1 ⟨20299, 36000⟩ (by decide)

/-- C7: the session scenario start → toggle Meal → toggle Meal → end
produces exactly the header followed by the three data rows
`SESSION START(T0)`, `Meal(T1,T2)`, `SESSION END(T0,T3)` in order, the
`SESSION END` notes carry the duration `T3 - T0` rendered `HH:MM:SS`,
and the header row occurs nowhere among the data rows. -/
theorem claim_C7_end_to_end_scenario (T0 T1 T2 T3 : DateTime)
    (n1 n2 ni : String) (reply : Reply)
    (h01 : T0.toSec ≤ T1.toSec) (h12 : T1.toSec ≤ T2.toSec)
    (h23 : T2.toSec ≤ T3.toSec) :
    end_session
        (toggle_event
          (toggle_event (setup_data_file true none T0) "Meal" n1 T1).2
          "Meal" n2 T2).2 T3 reply ni =
      Except.ok
        { activeEvents := [], sessionStartTime := some T0,
          dataFile := [headerRow, sessionStartRow T0,
            logEventRow "Meal" T1 (some T2) n2, sessionEndRow T0 T3],
          recordStartTime := true, runParser := true } ∧
    sessionEndRow T0 T3 =
      ⟨"SESSION END", fmtDate T0, fmtTime T0, fmtDate T3, fmtTime T3,
        "Session ended, duration: " ++ hmsStr (T3.toSec - T0.toSec)⟩ ∧
    headerRow ∉
      [sessionStartRow T0, logEventRow "Meal" T1 (some T2) n2,
        sessionEndRow T0 T3] := by
  have h03 : T0.toSec ≤ T3.toSec := le_trans (le_trans h01 h12) h23
  have hs0 : setup_data_file true none T0 =
      { activeEvents := [], sessionStartTime := some T0,
        dataFile := [headerRow, sessionStartRow T0],
        recordStartTime := true, runParser := false } := by
    simp [setup_data_file, record_session_start]
  have hs1 : (toggle_event (setup_data_file true none T0) "Meal" n1 T1).2 =
      { activeEvents := [("Meal", T1)], sessionStartTime := some T0,
        dataFile := [headerRow, sessionStartRow T0],
        recordStartTime := true, runParser := false } := by
    rw [hs0]
    simp [toggle_event, dictPop]
  have hs2 : (toggle_event
      (toggle_event (setup_data_file true none T0) "Meal" n1 T1).2
      "Meal" n2 T2).2 =
      { activeEvents := [], sessionStartTime := some T0,
        dataFile := [headerRow, sessionStartRow T0,
          logEventRow "Meal" T1 (some T2) n2],
        recordStartTime := true, runParser := false } := by
    rw [hs1]
    simp [toggle_event, dictPop, List.lookup]
  have hdur : ((T3.toSec : Int) - (T0.toSec : Int)) =
      ((T3.toSec - T0.toSec : Nat) : Int) := by
    omega
  refine ⟨?_, ?_, ?_⟩
  · rw [hs2]
    simp [end_session]
  · unfold sessionEndRow
    rw [hdur, durationStr_ofNat]
  · intro hmem
    simp only [List.mem_cons, List.not_mem_nil, or_false] at hmem
    rcases hmem with h | h | h
    · have he : ("Event" : String) = "SESSION START" := congrArg Row.event h
      exact absurd he (by decide)
    · have he : ("Event" : String) = "Meal" := congrArg Row.event h
      exact absurd he (by decide)
    · have he : ("Event" : String) = "SESSION END" := congrArg Row.event h
      exact absurd he (by decide)

/-- C7 witness at concrete clock readings T0 < T1 < T2 < T3. -/
theorem claim_C7_end_to_end_scenario_witness :
    ((⟨20300, 30000⟩ : DateTime).toSec ≤ (⟨20300, 36000⟩ : DateTime).toSec ∧
      (⟨20300, 36000⟩ : DateTime).toSec ≤ (⟨20300, 37000⟩ : DateTime).toSec ∧
      (⟨20300, 37000⟩ : DateTime).toSec ≤ (⟨20300, 40000⟩ : DateTime).toSec) ∧
    (end_session
        (toggle_event
          (toggle_event (setup_data_file true none ⟨20300, 30000⟩) "Meal" ""
            ⟨20300, 36000⟩).2
          "Meal" "" ⟨20300, 37000⟩).2 ⟨20300, 40000⟩ Reply.no "" =
      Except.ok
        { activeEvents := [], sessionStartTime := some ⟨20300, 30000⟩,
          dataFile := [headerRow, sessionStartRow ⟨20300, 30000⟩,
            logEventRow "Meal" ⟨20300, 36000⟩ (some ⟨20300, 37000⟩) "",
            sessionEndRow ⟨20300, 30000⟩ ⟨20300, 40000⟩],
          recordStartTime := true, runParser := true } ∧
      sessionEndRow ⟨20300, 30000⟩ ⟨20300, 40000⟩ =
        ⟨"SESSION END", fmtDate ⟨20300, 30000⟩, fmtTime ⟨20300, 30000⟩,
          fmtDate ⟨20300, 40000⟩, fmtTime ⟨20300, 40000⟩,
          "Session ended, duration: " ++
            hmsStr ((⟨20300, 40000⟩ : DateTime).toSec -
              (⟨20300, 30000⟩ : DateTime).toSec)⟩ ∧
      headerRow ∉
        [sessionStartRow ⟨20300, 30000⟩,
          logEventRow "Meal" ⟨20300, 36000⟩ (some ⟨20300, 37000⟩) "",
          sessionEndRow ⟨20300, 30000⟩ ⟨20300, 40000⟩]) :=
  ⟨⟨by decide, by decide, by decide⟩,
    claim_C7_end_to_end_scenario ⟨20300, 30000⟩ ⟨20300, 36000⟩
      ⟨20300, 37000⟩ ⟨20300, 40000⟩ "" "" "" Reply.no (by decide) (by decide)
      (by decide)⟩

/-- Popping or keeping, an abort never grows the active dictionary. -/
lemma abort_event_activeEvents_length (s : LoggerState) (ni : String) :
    (abort_event s ni).2.activeEvents.length ≤ s.activeEvents.length := by
  cases h : s.activeEvents with
  | nil => simp [abort_event, h]
  | cons hd tl =>
      obtain ⟨n0, t0⟩ := hd
      simp [abort_event, h]

/-- Every single operation preserves the at-most-one-active invariant. -/
lemma applyOp_activeEvents_le_one {s : LoggerState} (op : Op)
    (h : s.activeEvents.length ≤ 1) :
    (applyOp s op).activeEvents.length ≤ 1 := by
  cases op with
  | toggle n notes now =>
      cases hp : dictPop s.activeEvents n with
      | none => simp [applyOp, toggle_event, hp]
      | some vr =>
          obtain ⟨v, rest⟩ := vr
          have hrest := (dictPop_eq_some hp).2
          have hlen : rest.length ≤ s.activeEvents.length := by
            rw [hrest]
            exact List.length_filter_le _ _
          simp only [applyOp, toggle_event, hp]
          omega
  | abort notes =>
      have := abort_event_activeEvents_length s notes
      simp only [applyOp]
      omega
  | missing n a b un now =>
      simp only [applyOp, submit_missing_event]
      split
      · exact h
      · simpa using h
  | endSess now r ni =>
      cases hss : s.sessionStartTime with
      | none => simpa [applyOp, end_session, hss] using h
      | some sst =>
          simp only [applyOp, end_session, hss]
          by_cases hg : s.activeEvents ≠ [] ∧ r = Reply.cancel
          · simpa [hg] using h
          · simp only [if_neg hg]
            by_cases hy : s.activeEvents ≠ [] ∧ r = Reply.yes
            · have := abort_event_activeEvents_length s ni
              simp only [if_pos hy]
              omega
            · simpa [hy] using h
  | startSess now => simpa [applyOp, record_session_start] using h

/-- The invariant carries over entire operation sequences. -/
lemma runOps_activeEvents_le_one {s : LoggerState} (ops : List Op)
    (h : s.activeEvents.length ≤ 1) :
    (runOps s ops).activeEvents.length ≤ 1 := by
  induction ops generalizing s with
  | nil => simpa [runOps] using h
  | cons op ops ih =>
      have h1 := applyOp_activeEvents_le_one op h
      simpa [runOps, List.foldl_cons] using ih h1

/-- C8: from any freshly set-up logger, every sequence of the user
operations (toggle, abort, record-missing, end-session, session-start
marker) keeps at most one entry in the `active_events` dictionary. -/
theorem claim_C8_at_most_one_active_event (folderEmpty : Bool)
    (existingFile : Option (List Row)) (t0 : DateTime) (ops : List Op) :
    ((runOps (setup_data_file folderEmpty existingFile t0) ops).activeEvents).length
      ≤ 1 := by
  apply runOps_activeEvents_le_one
  cases existingFile with
  | some rows => simp [setup_data_file]
  | none =>
      cases folderEmpty <;> simp [setup_data_file, record_session_start]

/-- Operations other than the startup marker never assign the
`session_start_time` attribute. -/
lemma applyOp_sessionStartTime_none {s : LoggerState} (op : Op)
    (hop : ∀ now, op ≠ Op.startSess now) (hs : s.sessionStartTime = none) :
    (applyOp s op).sessionStartTime = none := by
  cases op with
  | toggle n notes now =>
      cases hp : dictPop s.activeEvents n with
      | none => simpa [applyOp, toggle_event, hp] using hs
      | some vr =>
          obtain ⟨v, rest⟩ := vr
          simpa [applyOp, toggle_event, hp] using hs
  | abort notes =>
      cases ha : s.activeEvents with
      | nil => simpa [applyOp, abort_event, ha] using hs
      | cons hd tl =>
          obtain ⟨n0, t0⟩ := hd
          simpa [applyOp, abort_event, ha] using hs
  | missing n a b un now =>
      simp only [applyOp, submit_missing_event]
      split
      · exact hs
      · simpa using hs
  | endSess now r ni => simp [applyOp, end_session, hs]
  | startSess now => exact absurd rfl (hop now)

/-- Attribute absence carries over whole runs without the marker. -/
lemma runOps_sessionStartTime_none {s : LoggerState} (ops : List Op)
    (hops : ∀ op ∈ ops, ∀ now, op ≠ Op.startSess now)
    (hs : s.sessionStartTime = none) :
    (runOps s ops).sessionStartTime = none := by
  induction ops generalizing s with
  | nil => simpa [runOps] using hs
  | cons op ops ih =>
      have h1 := applyOp_sessionStartTime_none op
        (hops op (List.mem_cons_self op ops)) hs
      have hops1 : ∀ o ∈ ops, ∀ now, o ≠ Op.startSess now :=
        fun o ho => hops o (List.mem_cons_of_mem op ho)
      simpa [runOps, List.foldl_cons] using ih hops1 h1

/-- C9: `session_start_time` is assigned exactly when the date folder was
empty and the data file was created fresh; in any run where the marker
was skipped, no later operation assigns it, and `end_session` then
raises `AttributeError` with the state — in particular the file —
untouched, before any `SESSION END` row is appended. -/
theorem claim_C9_end_session_attribute_error (folderEmpty : Bool)
    (existingFile : Option (List Row)) (t0 : DateTime) (ops : List Op)
    (hops : ∀ op ∈ ops, ∀ now, op ≠ Op.startSess now)
    (hnr : folderEmpty = false ∨ existingFile ≠ none)
    (now : DateTime) (reply : Reply) (ni : String) :
    (∀ fe t ex, (setup_data_file fe (some ex) t).sessionStartTime = none) ∧
    (∀ fe t, (setup_data_file fe none t).sessionStartTime =
      if fe then some t else none) ∧
    (runOps (setup_data_file folderEmpty existingFile t0) ops).sessionStartTime =
      none ∧
    end_session (runOps (setup_data_file folderEmpty existingFile t0) ops)
        now reply ni =
      Except.error (PyErr.attributeError,
        runOps (setup_data_file folderEmpty existingFile t0) ops) := by
  have hset : (setup_data_file folderEmpty existingFile t0).sessionStartTime =
      none := by
    cases existingFile with
    | some rows => simp [setup_data_file]
    | none =>
        rcases hnr with hf | hne
        · subst hf
          simp [setup_data_file]
        · exact absurd rfl hne
  have hrun := runOps_sessionStartTime_none ops hops hset
  refine ⟨?_, ?_, hrun, ?_⟩
  · intro fe t ex
    simp [setup_data_file]
  · intro fe t
    cases fe <;> simp [setup_data_file, record_session_start]
  · simp [end_session, hrun]

/-- C9 witness: a run whose date folder was non-empty (so the marker was
skipped), with one toggle before `end_session`. -/
theorem claim_C9_end_session_attribute_error_witness :
    ((∀ op ∈ [Op.toggle "Meal" "" (⟨20300, 36000⟩ : DateTime)],
        ∀ now, op ≠ Op.startSess now) ∧
      ((false = false ∨ (none : Option (List Row)) ≠ none))) ∧
    (runOps (setup_data_file false none ⟨20300, 30000⟩)
        [Op.toggle "Meal" "" ⟨20300, 36000⟩]).sessionStartTime = none ∧
    end_session
        (runOps (setup_data_file false none ⟨20300, 30000⟩)
          [Op.toggle "Meal" "" ⟨20300, 36000⟩]) ⟨20300, 40000⟩ Reply.no "" =
      Except.error (PyErr.attributeError,
        runOps (setup_data_file false none ⟨20300, 30000⟩)
          [Op.toggle "Meal" "" ⟨20300, 36000⟩]) := by
  have hops : ∀ op ∈ [Op.toggle "Meal" "" (⟨20300, 36000⟩ : DateTime)],
      ∀ now, op ≠ Op.startSess now := by
    intro op hop now
    rcases List.mem_singleton.mp hop with rfl
    simp
  have h := claim_C9_end_session_attribute_error false none ⟨20300, 30000⟩
    [Op.toggle "Meal" "" ⟨20300, 36000⟩] hops (Or.inl rfl)
    ⟨20300, 40000⟩ Reply.no ""
  exact ⟨⟨hops, Or.inl rfl⟩, h.2.2.1, h.2.2.2⟩

end TrbdLogger
